import Mathlib

/-!
Verification development for the district-STL generation pipeline
(`script.py` / `main.py`).

The per-feature numeric pipeline (nodata repair, grid construction,
exaggeration, physical scaling) is embedded over `ℚ`, with NumPy's `NaN`
modelled as `Option.none`.  The run-level control flow of
`generate_stl_models` (CRS reconciliation, the per-feature loop, output
naming, temporary-file cleanup) is embedded as a pure function `runModel`
over an abstract run configuration.
-/

namespace GenStl

/-! ## Per-feature numeric pipeline (`script.py` lines 84-101) -/

/-- Line 85, `np.where(arr == src.nodata, np.nan, arr)`: each cell equal to
the nodata sentinel becomes `NaN`, modelled as `none`. -/
def whereNodataNan (nodata : ℚ) (arr : List (List ℚ)) : List (List (Option ℚ)) :=
  arr.map (fun row => row.map (fun c => if c = nodata then none else some c))

/-- The non-`NaN` cells of a window, row-major. -/
def validCells (g : List (List (Option ℚ))) : List ℚ :=
  g.flatten.filterMap id

/-- Line 86, `np.nanmin(arr)`: the minimum over the non-`NaN` cells;
`none` when every cell is `NaN` (where NumPy yields `NaN`). -/
def nanmin (g : List (List (Option ℚ))) : Option ℚ :=
  (validCells g).min?

/-- Line 86, `np.nan_to_num(arr, nan=np.nanmin(arr))`: every `NaN` cell is
replaced by the `nanmin` fill value.  When `nanmin` is itself `NaN`
(all-`NaN` window) the replacement value is `NaN`, so the grid is
unchanged. -/
def nanToNum (g : List (List (Option ℚ))) : List (List (Option ℚ)) :=
  match nanmin g with
  | none => g
  | some m => g.map (fun row => row.map (fun c => some (c.getD m)))

/-- The repaired elevation window of line 86: nodata marked `NaN`, then
`NaN` filled with the window minimum. -/
def repairedWindow (nodata : ℚ) (arr : List (List ℚ)) : List (List (Option ℚ)) :=
  nanToNum (whereNodataNan nodata arr)

/-- Line 94, `Z = arr * vertical_exaggeration`, applied cell-wise (`NaN`
cells stay `NaN`). -/
def exaggerate (v : ℚ) (g : List (List (Option ℚ))) : List (List (Option ℚ)) :=
  g.map (fun row => row.map (fun c => c.map (fun q => q * v)))

/-- The pre-scaling height grid of a feature: repaired window times the
vertical exaggeration factor (lines 84-94). -/
def zPre (nodata : ℚ) (v : ℚ) (arr : List (List ℚ)) : List (List (Option ℚ)) :=
  exaggerate v (repairedWindow nodata arr)

/-- Line 97, `max_dim_m = max(ncols * xres, nrows * yres)`. -/
def maxDimM (ncols nrows : ℕ) (xres yres : ℚ) : ℚ :=
  max ((ncols : ℚ) * xres) ((nrows : ℚ) * yres)

/-- Line 98, `scale = target_size_mm / (max_dim_m * 1000.0)`. -/
def scaleFactor (target maxDim : ℚ) : ℚ :=
  target / (maxDim * 1000)

/-- Lines 92 and 99: the X coordinates `np.arange(ncols) * xres` after the
in-place `X *= scale * 1000`. -/
def xCoords (ncols : ℕ) (xres s : ℚ) : List ℚ :=
  (List.range ncols).map (fun i : ℕ => (i : ℚ) * xres * (s * 1000))

/-- Lines 92 and 100: the Y coordinates `np.arange(nrows) * yres` after the
in-place `Y *= scale * 1000`. -/
def yCoords (nrows : ℕ) (yres s : ℚ) : List ℚ :=
  (List.range nrows).map (fun i : ℕ => (i : ℚ) * yres * (s * 1000))

/-- Line 101: `Z *= scale * 1000`, applied cell-wise. -/
def zScaled (nodata : ℚ) (v s : ℚ) (arr : List (List ℚ)) : List (List (Option ℚ)) :=
  (zPre nodata v arr).map (fun row => row.map (fun c => c.map (fun q => q * (s * 1000))))

/-- Extent of a coordinate axis of the produced mesh's bounding box:
largest minus smallest vertex coordinate along that axis. -/
def planarExtent (coords : List ℚ) : ℚ :=
  coords.maximum.unbot' 0 - coords.minimum.untop' 0

/-! ## Run control flow of `generate_stl_models` (`script.py` lines 13-115)

The run is modelled as a pure function from an abstract run configuration
to an observable result.  File-system contents, the external `gdalwarp`
process and the raster/vector libraries are abstracted: a feature carries a
flag saying whether its geometry overlaps the raster (when it does not,
`rasterio.mask.mask` raises `ValueError`), and `gdalwarp` either succeeds —
producing a raster whose CRS is the requested target, per its contract —
or exits nonzero, raising `CalledProcessError` inside the `try` block. -/

/-- One vector feature: the optional `shapeName` attribute, and whether its
geometry overlaps the raster extent (masking succeeds iff it does). -/
structure Feature where
  shapeName : Option String
  overlapsRaster : Bool
deriving DecidableEq

/-- Configuration of one call to `generate_stl_models`, with the parts of
the environment the control flow inspects. -/
structure RunConfig where
  targetEpsg : Option Int
  demCrs : String
  vectorCrs : String
  warpOk : Bool
  features : List Feature
  outputFolder : String

/-- `f"EPSG:{target_epsg}"` (lines 26, 51, 62, 67). -/
def epsgString (e : Int) : String :=
  "EPSG:" ++ toString e

/-- Line 56, `row.get("shapeName", f"district_{idx}")`. -/
def resolvedName (idx : ℕ) (f : Feature) : String :=
  f.shapeName.getD ("district_" ++ toString idx)

/-- Line 107, `os.path.join(output_folder, f"{name}.stl")`. -/
def stlPath (folder : String) (idx : ℕ) (f : Feature) : String :=
  folder ++ "/" ++ resolvedName idx f ++ ".stl"

/-- Which masking branch the loop body takes for one feature. -/
inductive MaskBranch where
  /-- Lines 63-79: mask with `all_touched` then bilinear `reproject`. -/
  | reprojectBilinear : MaskBranch
  /-- Lines 80-82: plain `mask(src, geom, crop=True)`. -/
  | plainCrop : MaskBranch
deriving DecidableEq

/-- Line 62: the loop body reprojects iff an explicit EPSG was requested and
the opened raster's CRS string differs from it. -/
def branchFor (targetEpsg : Option Int) (usedCrs : String) : MaskBranch :=
  match targetEpsg with
  | some e => if usedCrs ≠ epsgString e then .reprojectBilinear else .plainCrop
  | none => .plainCrop

/-- Observable outcome of the per-feature loop (lines 54-109). -/
structure LoopResult where
  /-- Paths passed to `mesh.save`, in order; a repeated path is a second
  save to the same file, overwriting the first. -/
  written : List String
  /-- The masking branch taken by each completed iteration. -/
  branches : List MaskBranch
  /-- Number of iterations that completed. -/
  processed : ℕ
  /-- The exception that escaped the loop, if any. -/
  raised : Option String

/-- The per-feature loop: each overlapping feature is masked, meshed and
saved to `stlPath`; a non-overlapping feature makes `rasterio.mask.mask`
raise, which propagates and ends the run. -/
def processFeatures (targetEpsg : Option Int) (usedCrs folder : String) :
    ℕ → List Feature → LoopResult
  | _, [] => ⟨[], [], 0, none⟩
  | idx, f :: rest =>
    if f.overlapsRaster then
      let r := processFeatures targetEpsg usedCrs folder (idx + 1) rest
      ⟨stlPath folder idx f :: r.written, branchFor targetEpsg usedCrs :: r.branches,
        r.processed + 1, r.raised⟩
    else
      ⟨[], [], 0, some "Input shapes do not overlap raster."⟩

/-- Result of the CRS-reconciliation prologue (lines 24-46). -/
structure CrsStep where
  /-- CRS of `processed_dem_file`, the raster the loop opens. -/
  processedCrs : String
  /-- Whether a temporary reprojected raster was created. -/
  tempCreated : Bool
  /-- Whether `gdalwarp` failed, taking the early `return` of line 46. -/
  warpFailed : Bool

/-- Lines 24-46: no explicit EPSG keeps the raster untouched; with an
explicit EPSG whose string differs from the raster's CRS, `gdalwarp` is
invoked — on success the temporary output has the target CRS, on failure
the function prints the error and returns early. -/
def crsStep (cfg : RunConfig) : CrsStep :=
  match cfg.targetEpsg with
  | none => ⟨cfg.demCrs, false, false⟩
  | some e =>
    if cfg.demCrs ≠ epsgString e then
      if cfg.warpOk then ⟨epsgString e, true, false⟩
      else ⟨cfg.demCrs, false, true⟩
    else ⟨cfg.demCrs, false, false⟩

/-- Lines 49-52: the vector layer is reprojected (`gdf.to_crs`) only when
an explicit EPSG was supplied; otherwise it keeps its own CRS. -/
def vectorCrsAfterLoad (cfg : RunConfig) : String :=
  match cfg.targetEpsg with
  | some e => epsgString e
  | none => cfg.vectorCrs

/-- Modelled from the spec: "always reprojects/validates the vector layer
against that CRS", the target CRS being the explicit one when given and
otherwise the raster's native CRS (spec sections 2 and 4.1). -/
def specVectorCrsAfterLoad (cfg : RunConfig) : String :=
  match cfg.targetEpsg with
  | some e => epsgString e
  | none => cfg.demCrs

/-- Everything a caller of `generate_stl_models` can observe of one run. -/
structure RunResult where
  /-- The exception that escaped the call, if any; when `none` the function
  returned normally — and its return value is always `None`. -/
  raised : Option String
  /-- Paths passed to `mesh.save`, in order. -/
  written : List String
  /-- Messages printed to stdout by the error handler of lines 44-45. -/
  printedErrors : List String
  /-- The masking branch of each completed iteration. -/
  branches : List MaskBranch
  /-- Number of loop iterations that completed. -/
  processed : ℕ
  /-- CRS of the vector layer used by the loop (when it was loaded). -/
  vectorCrsUsed : String
  /-- Whether a temporary reprojected raster was created. -/
  tempCreated : Bool
  /-- Whether lines 112-115 removed the temporary raster. -/
  tempRemoved : Bool
deriving DecidableEq

/-- The whole of `generate_stl_models` (lines 13-115): CRS prologue, early
return on warp failure, vector load, per-feature loop, and the cleanup of
lines 112-115 — which runs only when the loop finishes without an
exception. -/
def runModel (cfg : RunConfig) : RunResult :=
  let w := crsStep cfg
  if w.warpFailed then
    { raised := none, written := [], printedErrors := ["Error during gdalwarp execution"],
      branches := [], processed := 0, vectorCrsUsed := cfg.vectorCrs,
      tempCreated := false, tempRemoved := false }
  else
    let L := processFeatures cfg.targetEpsg w.processedCrs cfg.outputFolder 0 cfg.features
    { raised := L.raised, written := L.written, printedErrors := [],
      branches := L.branches, processed := L.processed,
      vectorCrsUsed := vectorCrsAfterLoad cfg,
      tempCreated := w.tempCreated,
      tempRemoved := w.tempCreated && L.raised.isNone }

/-- The temporary reprojected raster still exists when the call ends. -/
def tempLeftBehind (r : RunResult) : Bool :=
  r.tempCreated && !r.tempRemoved

/-- Whether a failure was surfaced to the caller as a fatal error.  The
Python function returns `None` on every non-raising path, so the only
error a caller can receive is a raised exception. -/
def fatalErrorSurfaced (r : RunResult) : Bool :=
  r.raised.isSome

/-! ## The HTTP surface (`main.py` lines 15-34) -/

/-- The argument vector `generate_stl_models` is called with. -/
structure PipelineArgs where
  outputFolder : String
  verticalExaggeration : ℚ
  targetSizeMm : ℚ
  targetEpsg : Option Int

/-- `main.py` lines 28-34: the `/generate` handler passes the uploaded
files, a scratch output folder and the client's exaggeration; the target
size and target EPSG keep the defaults of `script.py` lines 18-19. -/
def httpPipelineArgs (exaggeration : ℚ) : PipelineArgs :=
  { outputFolder := "stl_output", verticalExaggeration := exaggeration,
    targetSizeMm := 180, targetEpsg := none }

/-- `main.py` line 16: the `exaggeration` form field defaults to 10. -/
def httpExaggerationDefault : ℚ := 10

/-- The run configuration induced by an HTTP request: the pipeline
arguments come from `httpPipelineArgs`, the environment is arbitrary. -/
def httpRunConfig (exaggeration : ℚ) (demCrs vectorCrs : String) (warpOk : Bool)
    (features : List Feature) : RunConfig :=
  { targetEpsg := (httpPipelineArgs exaggeration).targetEpsg,
    demCrs := demCrs, vectorCrs := vectorCrs, warpOk := warpOk,
    features := features, outputFolder := (httpPipelineArgs exaggeration).outputFolder }

/-! ## Helper lemmas -/

/-- A valid (non-`NaN`) cell of the sentinel-marked window is a cell of the
original window that differs from the sentinel. -/
lemma mem_validCells_iff (nodata b : ℚ) (arr : List (List ℚ)) :
    b ∈ validCells (whereNodataNan nodata arr) ↔
      b ≠ nodata ∧ ∃ row ∈ arr, b ∈ row := by
  simp only [validCells, whereNodataNan, List.mem_filterMap, List.mem_flatten,
    List.mem_map, id_eq]
  constructor
  · rintro ⟨a, ⟨l, ⟨row, hrow, rfl⟩, ha⟩, haeq⟩
    obtain ⟨c, hc, rfl⟩ := List.mem_map.mp ha
    by_cases hcn : c = nodata
    · simp [hcn] at haeq
    · simp only [hcn, if_false, Option.some.injEq] at haeq
      subst haeq
      exact ⟨hcn, row, hrow, hc⟩
  · rintro ⟨hbn, row, hrow, hb⟩
    refine ⟨if b = nodata then none else some b,
      ⟨_, ⟨row, hrow, rfl⟩, List.mem_map_of_mem _ hb⟩, by simp [hbn]⟩

/-- Characterisation of `np.nanmin`: it returns `some m` exactly when `m`
is a valid cell that bounds every valid cell from below. -/
lemma nanmin_eq_some_iff (g : List (List (Option ℚ))) (m : ℚ) :
    nanmin g = some m ↔ m ∈ validCells g ∧ ∀ b ∈ validCells g, m ≤ b := by
  have anti : Std.Antisymm ((· : ℚ) ≤ ·) := ⟨fun h h2 => le_antisymm h h2⟩
  exact List.min?_eq_some_iff (fun a => le_refl a) (fun a b => min_choice a b)
    (fun a b c => le_min_iff)

/-- Once the fill value is known, the repaired window is the original
window with each sentinel cell replaced by the fill value. -/
lemma nanToNum_whereNodataNan (nodata m : ℚ) (arr : List (List ℚ))
    (hm : nanmin (whereNodataNan nodata arr) = some m) :
    repairedWindow nodata arr
      = arr.map (fun row => row.map (fun c => some (if c = nodata then m else c))) := by
  unfold repairedWindow nanToNum
  rw [hm]
  unfold whereNodataNan
  simp only [List.map_map]
  congr 1
  funext row
  simp only [Function.comp_apply, List.map_map]
  congr 1
  funext c
  by_cases hcn : c = nodata <;> simp [hcn]

/-! ## C2: nodata repair uses the per-window minimum -/

/-- C2: in a window with at least one valid cell, every nodata-sentinel
cell is replaced by the minimum valid elevation of that same window before
`Z` is computed, and no `NaN` or sentinel value survives in any cell. -/
theorem nodata_filled_with_window_min (nodata : ℚ) (arr : List (List ℚ))
    (h : validCells (whereNodataNan nodata arr) ≠ []) :
    ∃ m : ℚ, nanmin (whereNodataNan nodata arr) = some m
      ∧ m ∈ validCells (whereNodataNan nodata arr)
      ∧ (∀ b ∈ validCells (whereNodataNan nodata arr), m ≤ b)
      ∧ repairedWindow nodata arr
          = arr.map (fun row => row.map (fun c => some (if c = nodata then m else c)))
      ∧ (∀ row ∈ repairedWindow nodata arr, ∀ c ∈ row, ∃ q : ℚ, c = some q ∧ q ≠ nodata)
      ∧ ∀ v s : ℚ, ∀ row ∈ zScaled nodata v s arr, ∀ c ∈ row, c ≠ none := by
  obtain ⟨m, hm⟩ : ∃ m, nanmin (whereNodataNan nodata arr) = some m := by
    cases hg : nanmin (whereNodataNan nodata arr) with
    | none => exact absurd (List.min?_eq_none_iff.mp hg) h
    | some m => exact ⟨m, rfl⟩
  have hmem := (nanmin_eq_some_iff _ m).mp hm
  have heq := nanToNum_whereNodataNan nodata m arr hm
  have hcell : ∀ row ∈ repairedWindow nodata arr, ∀ c ∈ row,
      ∃ q : ℚ, c = some q ∧ q ≠ nodata := by
    intro row hrow c hc
    rw [heq] at hrow
    obtain ⟨row0, hrow0, rfl⟩ := List.mem_map.mp hrow
    obtain ⟨c0, hc0, rfl⟩ := List.mem_map.mp hc
    refine ⟨if c0 = nodata then m else c0, rfl, ?_⟩
    split_ifs with hcn
    · exact ((mem_validCells_iff nodata m arr).mp hmem.1).1
    · exact hcn
  refine ⟨m, hm, hmem.1, hmem.2, heq, hcell, ?_⟩
  intro v s row hrow c hc
  unfold zScaled zPre exaggerate at hrow
  obtain ⟨row1, hrow1, rfl⟩ := List.mem_map.mp hrow
  obtain ⟨row0, hrow0, rfl⟩ := List.mem_map.mp hrow1
  obtain ⟨c1, hc1, rfl⟩ := List.mem_map.mp hc
  obtain ⟨c0, hc0, rfl⟩ := List.mem_map.mp hc1
  obtain ⟨q, hq, -⟩ := hcell row0 hrow0 c0 hc0
  simp [hq]

/-- C2 witness: a concrete 2×2 window with sentinel `-9999` and valid
cells `5, 7, 6`. -/
theorem nodata_filled_with_window_min_witness :
    validCells (whereNodataNan (-9999) [[5, -9999], [7, 6]]) ≠ [] ∧
    (∃ m : ℚ, nanmin (whereNodataNan (-9999) [[5, -9999], [7, 6]]) = some m
      ∧ m ∈ validCells (whereNodataNan (-9999) [[5, -9999], [7, 6]])
      ∧ (∀ b ∈ validCells (whereNodataNan (-9999) [[5, -9999], [7, 6]]), m ≤ b)
      ∧ repairedWindow (-9999) [[5, -9999], [7, 6]]
          = [[5, -9999], [7, 6]].map
              (fun row => row.map (fun c => some (if c = -9999 then m else c)))
      ∧ (∀ row ∈ repairedWindow (-9999) [[5, -9999], [7, 6]], ∀ c ∈ row,
          ∃ q : ℚ, c = some q ∧ q ≠ -9999)
      ∧ ∀ v s : ℚ, ∀ row ∈ zScaled (-9999) v s [[5, -9999], [7, 6]], ∀ c ∈ row,
          c ≠ none) :=
  ⟨by decide, nodata_filled_with_window_min (-9999) [[5, -9999], [7, 6]] (by decide)⟩

/-! ## C4: doubling the exaggeration doubles pre-scaling heights -/

/-- C4: for any window and any exaggeration `v`, the pre-scaling height
grid at exaggeration `2·v` is the cell-wise double of the grid at `v`
(exaggeration acts linearly before physical scaling). -/
theorem exaggeration_doubling (nodata v : ℚ) (arr : List (List ℚ)) :
    zPre nodata (2 * v) arr
      = (zPre nodata v arr).map (fun row => row.map (fun c => c.map (fun q => 2 * q))) := by
  unfold zPre exaggerate
  simp only [List.map_map]
  congr 1
  funext row
  simp only [Function.comp_apply, List.map_map]
  congr 1
  funext c
  cases c with
  | none => rfl
  | some q =>
    simp only [Function.comp_apply, Option.map_some']
    congr 1
    ring

/-- The largest scaled coordinate along one axis: the lattice has `m + 1`
vertices at `i · r · (s·1000)` for `i ≤ m`, so the top vertex sits at
index `m`. -/
lemma axisCoords_maximum (m : ℕ) (r s : ℚ) (hr : 0 ≤ r) (hs : 0 ≤ s) :
    ((List.range (m + 1)).map (fun i : ℕ => (i : ℚ) * r * (s * 1000))).maximum
      = (((m : ℚ) * r * (s * 1000) : ℚ) : WithBot ℚ) := by
  rw [List.maximum_eq_coe_iff]
  refine ⟨List.mem_map.mpr ⟨m, List.mem_range.mpr (Nat.lt_succ_self m), rfl⟩, ?_⟩
  intro a ha
  obtain ⟨i, hi, rfl⟩ := List.mem_map.mp ha
  have hle : (i : ℚ) ≤ (m : ℚ) :=
    Nat.cast_le.mpr (Nat.lt_succ_iff.mp (List.mem_range.mp hi))
  have h1000 : (0 : ℚ) ≤ s * 1000 := by positivity
  exact mul_le_mul_of_nonneg_right (mul_le_mul_of_nonneg_right hle hr) h1000

/-- The smallest scaled coordinate along one axis is the vertex at index
`0`, i.e. `0`. -/
lemma axisCoords_minimum (m : ℕ) (r s : ℚ) (hr : 0 ≤ r) (hs : 0 ≤ s) :
    ((List.range (m + 1)).map (fun i : ℕ => (i : ℚ) * r * (s * 1000))).minimum
      = ((0 : ℚ) : WithTop ℚ) := by
  rw [List.minimum_eq_coe_iff]
  refine ⟨List.mem_map.mpr ⟨0, List.mem_range.mpr (Nat.succ_pos m), by norm_num⟩, ?_⟩
  intro a ha
  obtain ⟨i, hi, rfl⟩ := List.mem_map.mp ha
  have h1000 : (0 : ℚ) ≤ s * 1000 := by positivity
  exact mul_nonneg (mul_nonneg (Nat.cast_nonneg i) hr) h1000

/-- Bounding-box extent of one scaled axis with `m + 1` vertices:
`m · r · (s·1000)`. -/
lemma planarExtent_axis (m : ℕ) (r s : ℚ) (hr : 0 ≤ r) (hs : 0 ≤ s) :
    planarExtent ((List.range (m + 1)).map (fun i : ℕ => (i : ℚ) * r * (s * 1000)))
      = (m : ℚ) * r * (s * 1000) := by
  unfold planarExtent
  rw [axisCoords_maximum m r s hr hs, axisCoords_minimum m r s hr hs,
    WithBot.unbot'_coe, WithTop.untop'_coe, sub_zero]

/-! ## C1: physical scaling and the longest bounding-box dimension -/

/-- C1 counterexample: a 2×2 window with 1 m pixels and target size 180 mm.
The scale factor is `180 / (2·1000)`, but the mesh spans only one pixel
spacing per axis, so the longest planar bounding-box dimension is 90 mm,
not 180 mm. -/
theorem target_size_not_attained :
    max (planarExtent (xCoords 2 1 (scaleFactor 180 (maxDimM 2 2 1 1))))
        (planarExtent (yCoords 2 1 (scaleFactor 180 (maxDimM 2 2 1 1)))) = 90
    ∧ max (planarExtent (xCoords 2 1 (scaleFactor 180 (maxDimM 2 2 1 1))))
        (planarExtent (yCoords 2 1 (scaleFactor 180 (maxDimM 2 2 1 1)))) ≠ 180 := by
  have hmd : maxDimM 2 2 1 1 = 2 := by norm_num [maxDimM]
  have hsv : scaleFactor 180 (maxDimM 2 2 1 1) = 9 / 100 := by
    rw [hmd]
    norm_num [scaleFactor]
  have hsn : (0 : ℚ) ≤ scaleFactor 180 (maxDimM 2 2 1 1) := by
    rw [hsv]
    norm_num
  have h2 : (2 : ℕ) = 1 + 1 := rfl
  have hxe : planarExtent (xCoords 2 1 (scaleFactor 180 (maxDimM 2 2 1 1))) = 90 := by
    rw [xCoords, h2, planarExtent_axis 1 1 _ (by norm_num) hsn, hsv]
    norm_num
  have hye : planarExtent (yCoords 2 1 (scaleFactor 180 (maxDimM 2 2 1 1))) = 90 := by
    rw [yCoords, h2, planarExtent_axis 1 1 _ (by norm_num) hsn, hsv]
    norm_num
  rw [hxe, hye, max_self]
  norm_num

/-- C1 (amended): with the source's scale factor
`target / (max(ncols·xres, nrows·yres) · 1000)` applied uniformly, the
longest planar bounding-box dimension of the mesh equals
`target · max((ncols-1)·xres, (nrows-1)·yres) / max(ncols·xres, nrows·yres)`,
which falls short of `target` because the lattice spans one pixel fewer
than the extent used to compute the scale. -/
theorem scaled_extent_formula (ncols nrows : ℕ) (xres yres target : ℚ)
    (hc : 1 ≤ ncols) (hr : 1 ≤ nrows) (hx : 0 < xres) (hy : 0 < yres) (ht : 0 < target) :
    max (planarExtent (xCoords ncols xres (scaleFactor target (maxDimM ncols nrows xres yres))))
        (planarExtent (yCoords nrows yres (scaleFactor target (maxDimM ncols nrows xres yres))))
      = target * max (((ncols - 1 : ℕ) : ℚ) * xres) (((nrows - 1 : ℕ) : ℚ) * yres)
          / maxDimM ncols nrows xres yres := by
  obtain ⟨mc, rfl⟩ : ∃ m, ncols = m + 1 := ⟨ncols - 1, by omega⟩
  obtain ⟨mr, rfl⟩ : ∃ m, nrows = m + 1 := ⟨nrows - 1, by omega⟩
  have hmd : 0 < maxDimM (mc + 1) (mr + 1) xres yres := by
    refine lt_max_iff.mpr (Or.inl (mul_pos ?_ hx))
    exact_mod_cast Nat.succ_pos mc
  have hs : 0 ≤ scaleFactor target (maxDimM (mc + 1) (mr + 1) xres yres) := by
    unfold scaleFactor
    exact div_nonneg ht.le (by positivity)
  simp only [Nat.add_sub_cancel]
  unfold xCoords yCoords
  rw [planarExtent_axis mc xres _ hx.le hs, planarExtent_axis mr yres _ hy.le hs]
  rw [← max_mul_of_nonneg _ _ (by positivity :
        (0 : ℚ) ≤ scaleFactor target (maxDimM (mc + 1) (mr + 1) xres yres) * 1000)]
  have hsc : scaleFactor target (maxDimM (mc + 1) (mr + 1) xres yres) * 1000
      = target / maxDimM (mc + 1) (mr + 1) xres yres := by
    unfold scaleFactor
    rw [div_mul_eq_mul_div, div_eq_div_iff (by positivity) hmd.ne']
    ring
  rw [hsc]
  ring

/-- C1 witness for the amended statement: the 2×2, 1 m, 180 mm instance,
where the formula evaluates to 90 mm. -/
theorem scaled_extent_formula_witness :
    (1 ≤ 2 ∧ 1 ≤ 2 ∧ (0 : ℚ) < 1 ∧ (0 : ℚ) < 1 ∧ (0 : ℚ) < 180)
    ∧ max (planarExtent (xCoords 2 1 (scaleFactor 180 (maxDimM 2 2 1 1))))
        (planarExtent (yCoords 2 1 (scaleFactor 180 (maxDimM 2 2 1 1))))
      = 180 * max (((2 - 1 : ℕ) : ℚ) * 1) (((2 - 1 : ℕ) : ℚ) * 1) / maxDimM 2 2 1 1 :=
  ⟨⟨by norm_num, by norm_num, by norm_num, by norm_num, by norm_num⟩,
    scaled_extent_formula 2 2 1 1 180 (by norm_num) (by norm_num) (by norm_num)
      (by norm_num) (by norm_num)⟩

/-- When the loop is reached with an explicit target EPSG, the raster it
opens has that CRS: either the original raster already matched, or the
warp succeeded and produced one in the target CRS. -/
lemma crsStep_processedCrs (cfg : RunConfig) (e : Int)
    (h1 : cfg.targetEpsg = some e) (h2 : (crsStep cfg).warpFailed = false) :
    (crsStep cfg).processedCrs = epsgString e := by
  by_cases hne : cfg.demCrs = epsgString e
  · simp [crsStep, h1, hne]
  · by_cases hw : cfg.warpOk = true
    · simp [crsStep, h1, hne, hw]
    · exfalso
      simp [crsStep, h1, hne, hw] at h2

/-- Every completed iteration of the loop takes the branch determined by
the target EPSG and the opened raster's CRS. -/
lemma processFeatures_branches (te : Option Int) (crs folder : String) (l : List Feature) :
    ∀ i, ∀ b ∈ (processFeatures te crs folder i l).branches, b = branchFor te crs := by
  induction l with
  | nil =>
    intro i b hb
    simp [processFeatures] at hb
  | cons f rest ih =>
    intro i b hb
    unfold processFeatures at hb
    by_cases hf : f.overlapsRaster = true
    · simp only [hf, if_true] at hb
      rcases List.mem_cons.mp hb with h | h
      · exact h
      · exact ih (i + 1) b h
    · simp [hf] at hb

/-- When every feature overlaps the raster, the loop writes exactly one
mesh per feature, at the path derived from its resolved name and ignoring
collisions. -/
lemma processFeatures_written (te : Option Int) (crs folder : String) :
    ∀ l : List Feature, (∀ f ∈ l, f.overlapsRaster = true) →
      ∀ i, (processFeatures te crs folder i l).written
        = (l.enumFrom i).map (fun p => stlPath folder p.1 p.2) := by
  intro l
  induction l with
  | nil =>
    intro _ i
    simp [processFeatures]
  | cons f rest ih =>
    intro h i
    have hf : f.overlapsRaster = true := h f (List.mem_cons_self f rest)
    have hrest : ∀ g ∈ rest, g.overlapsRaster = true :=
      fun g hg => h g (List.mem_cons_of_mem f hg)
    unfold processFeatures
    simp only [hf, if_true, List.enumFrom_cons, List.map_cons]
    rw [ih hrest (i + 1)]

/-! ## Concrete run configurations used by the closed theorems -/

/-- A run whose first feature lies outside the raster and whose second is
valid. -/
def cfgOutside : RunConfig :=
  { targetEpsg := none, demCrs := "EPSG:4326", vectorCrs := "EPSG:4326",
    warpOk := true, features := [⟨some "Alpha", false⟩, ⟨some "Beta", true⟩],
    outputFolder := "stl_districts" }

/-- No explicit target EPSG, vector CRS differing from the raster CRS. -/
def cfgCrsMismatch : RunConfig :=
  { targetEpsg := none, demCrs := "EPSG:32633", vectorCrs := "EPSG:4326",
    warpOk := true, features := [], outputFolder := "o" }

/-- Explicit target EPSG 7 with a raster already in `EPSG:7`. -/
def cfgEpsgMatch : RunConfig :=
  { targetEpsg := some 7, demCrs := "EPSG:7", vectorCrs := "EPSG:4326",
    warpOk := true, features := [], outputFolder := "o" }

/-- Explicit target EPSG whose warp invocation fails. -/
def cfgWarpFail : RunConfig :=
  { targetEpsg := some 32633, demCrs := "EPSG:4326", vectorCrs := "EPSG:4326",
    warpOk := false, features := [⟨some "Gamma", true⟩], outputFolder := "out" }

/-- Successful warp followed by a feature whose masking raises. -/
def cfgTempLeak : RunConfig :=
  { targetEpsg := some 32633, demCrs := "EPSG:4326", vectorCrs := "EPSG:4326",
    warpOk := true, features := [⟨some "Delta", false⟩], outputFolder := "out" }

/-- Successful warp followed by a valid feature. -/
def cfgTempOk : RunConfig :=
  { targetEpsg := some 32633, demCrs := "EPSG:4326", vectorCrs := "EPSG:4326",
    warpOk := true, features := [⟨some "Theta", true⟩], outputFolder := "out" }

/-- Two features resolving to the same name `Alpha`. -/
def cfgCollide : RunConfig :=
  { targetEpsg := none, demCrs := "EPSG:4326", vectorCrs := "EPSG:4326",
    warpOk := true, features := [⟨some "Alpha", true⟩, ⟨some "Alpha", true⟩],
    outputFolder := "stl_districts" }

/-- A named feature and an unnamed one, both overlapping the raster. -/
def cfgTwoNames : RunConfig :=
  { targetEpsg := none, demCrs := "EPSG:4326", vectorCrs := "EPSG:4326",
    warpOk := true, features := [⟨some "Alpha", true⟩, ⟨none, true⟩],
    outputFolder := "o" }

/-- Explicit EPSG 7, matching raster, two overlapping features. -/
def cfgEpsgLoop : RunConfig :=
  { targetEpsg := some 7, demCrs := "EPSG:7", vectorCrs := "EPSG:7",
    warpOk := true, features := [⟨some "Zeta", true⟩, ⟨none, true⟩],
    outputFolder := "o" }

/-! ## C3: a feature outside the raster aborts the whole run -/

/-- C3 failing input, evaluated: a run over a feature whose geometry does
not overlap the raster followed by a valid feature.  The masking error
propagates as an exception, zero features complete, no mesh is written and
the second feature is never reached — there is no per-feature failure
report that lets siblings continue. -/
theorem outside_feature_aborts_run :
    runModel cfgOutside
      = { raised := some "Input shapes do not overlap raster.", written := [],
          printedErrors := [], branches := [], processed := 0,
          vectorCrsUsed := "EPSG:4326", tempCreated := false, tempRemoved := false } := by
  decide

/-! ## C5: when is the vector layer reprojected? -/

/-- C5 counterexample: with no explicit target EPSG and a vector CRS that
differs from the raster's, the code leaves the vector layer in its own CRS
while the spec requires reprojection to the raster's native CRS. -/
theorem vector_not_reprojected_without_target :
    vectorCrsAfterLoad cfgCrsMismatch ≠ specVectorCrsAfterLoad cfgCrsMismatch := by
  decide

/-- C5 (amended): the vector layer is reprojected to `EPSG:{target_epsg}`
exactly when an explicit target EPSG is supplied; with no explicit target
it keeps its own CRS even when that differs from the raster's. -/
theorem vector_reprojection_policy (cfg : RunConfig)
    (h : (crsStep cfg).warpFailed = false) :
    (runModel cfg).vectorCrsUsed
      = match cfg.targetEpsg with
        | some e => epsgString e
        | none => cfg.vectorCrs := by
  unfold runModel
  simp only [h, Bool.false_eq_true, if_false]
  rfl

/-- C5 witness: a run with explicit target EPSG 7 and a matching raster;
the vector layer is reprojected to `EPSG:7`. -/
theorem vector_reprojection_policy_witness :
    (crsStep cfgEpsgMatch).warpFailed = false
    ∧ (runModel cfgEpsgMatch).vectorCrsUsed = epsgString 7 :=
  ⟨by decide, vector_reprojection_policy cfgEpsgMatch (by decide)⟩

/-! ## C6: failed whole-raster warp -/

/-- C6 counterexample: when `gdalwarp` fails, the run stops before any
feature and writes nothing, but it prints the error and returns `None`
exactly as a successful call does — nothing is raised and no error value
is returned, so the failure is not surfaced to the caller. -/
theorem warp_failure_not_surfaced :
    runModel cfgWarpFail
      = { raised := none, written := [],
          printedErrors := ["Error during gdalwarp execution"], branches := [],
          processed := 0, vectorCrsUsed := "EPSG:4326",
          tempCreated := false, tempRemoved := false }
    ∧ fatalErrorSurfaced (runModel cfgWarpFail) = false := by
  constructor
  · decide
  · decide

/-- C6 (amended): a failed warp aborts the run before any feature is
processed and no mesh is written, but the failure is only printed: the
function neither raises nor returns an error value, so the caller cannot
distinguish it from success. -/
theorem warp_failure_aborts_silently (cfg : RunConfig)
    (h : (crsStep cfg).warpFailed = true) :
    (runModel cfg).written = [] ∧ (runModel cfg).processed = 0
    ∧ (runModel cfg).raised = none
    ∧ (runModel cfg).printedErrors = ["Error during gdalwarp execution"]
    ∧ fatalErrorSurfaced (runModel cfg) = false := by
  simp [runModel, h, fatalErrorSurfaced]

/-- C6 witness: a concrete failing-warp run. -/
theorem warp_failure_aborts_silently_witness :
    (crsStep cfgWarpFail).warpFailed = true
    ∧ ((runModel cfgWarpFail).written = [] ∧ (runModel cfgWarpFail).processed = 0
      ∧ (runModel cfgWarpFail).raised = none
      ∧ (runModel cfgWarpFail).printedErrors = ["Error during gdalwarp execution"]
      ∧ fatalErrorSurfaced (runModel cfgWarpFail) = false) :=
  ⟨by decide, warp_failure_aborts_silently cfgWarpFail (by decide)⟩

/-! ## C7: temporary reprojected raster cleanup -/

/-- C7 counterexample: the warp succeeds and creates a temporary raster,
then the first feature's masking raises; the cleanup of lines 112-115 is
never reached and the temporary file is left behind. -/
theorem temp_file_leaks_on_exception :
    tempLeftBehind (runModel cfgTempLeak) = true
    ∧ (runModel cfgTempLeak).raised = some "Input shapes do not overlap raster." := by
  constructor
  · decide
  · decide

/-- C7 (amended): the temporary reprojected raster is deleted when the
run returns normally; it is leaked when feature processing raises. -/
theorem temp_file_removed_on_success (cfg : RunConfig)
    (h : (runModel cfg).raised = none) :
    tempLeftBehind (runModel cfg) = false := by
  unfold tempLeftBehind
  unfold runModel at h ⊢
  by_cases hw : (crsStep cfg).warpFailed = true
  · simp [hw]
  · simp only [hw, Bool.false_eq_true, if_false] at h ⊢
    simp [h]

/-- C7 witness: a successful run whose warp created a temporary raster;
nothing is left behind. -/
theorem temp_file_removed_on_success_witness :
    (runModel cfgTempOk).raised = none
    ∧ tempLeftBehind (runModel cfgTempOk) = false :=
  ⟨by decide, temp_file_removed_on_success cfgTempOk (by decide)⟩

/-! ## C8: output-name collisions -/

/-- C8 counterexample: two features both named `Alpha` are saved to the
same path in the same run — the positional index is not appended, so the
second save silently overwrites the first. -/
theorem name_collision_overwrites :
    (runModel cfgCollide).written
      = ["stl_districts/Alpha.stl", "stl_districts/Alpha.stl"]
    ∧ ¬ (runModel cfgCollide).written.Nodup := by
  constructor
  · decide
  · decide

/-- C8 (amended): every feature is saved to `output_folder/{name}.stl`
where `name` is the resolved name alone — no collision detection, no index
appended — so same-named features map to the same path. -/
theorem output_paths_ignore_collisions (cfg : RunConfig)
    (h1 : cfg.targetEpsg = none)
    (h2 : ∀ f ∈ cfg.features, f.overlapsRaster = true) :
    (runModel cfg).written
      = cfg.features.enum.map (fun p => stlPath cfg.outputFolder p.1 p.2) := by
  have hw : (crsStep cfg).warpFailed = false := by
    simp [crsStep, h1]
  unfold runModel
  simp only [hw, Bool.false_eq_true, if_false]
  rw [List.enum]
  exact processFeatures_written cfg.targetEpsg (crsStep cfg).processedCrs cfg.outputFolder
    cfg.features h2 0

/-- C8 witness: two distinct overlapping features; the output paths are
exactly the per-feature name paths. -/
theorem output_paths_ignore_collisions_witness :
    cfgTwoNames.targetEpsg = none
    ∧ (∀ f ∈ cfgTwoNames.features, f.overlapsRaster = true)
    ∧ (runModel cfgTwoNames).written
      = cfgTwoNames.features.enum.map (fun p => stlPath cfgTwoNames.outputFolder p.1 p.2) :=
  ⟨rfl, by decide, output_paths_ignore_collisions cfgTwoNames rfl (by decide)⟩

/-! ## C9: with an explicit EPSG the bilinear branch is unreachable -/

/-- C9: whenever the per-feature loop runs with an explicit target EPSG
(the warp, if needed, succeeded), the opened raster already has the target
CRS, so every completed iteration takes the plain-crop branch and the
mask-then-bilinear-reproject branch is never taken. -/
theorem explicit_epsg_plain_branch (cfg : RunConfig) (e : Int)
    (h1 : cfg.targetEpsg = some e) (h2 : (crsStep cfg).warpFailed = false) :
    (runModel cfg).branches.all (fun b => b == MaskBranch.plainCrop) = true := by
  have hcrs := crsStep_processedCrs cfg e h1 h2
  unfold runModel
  simp only [h2, Bool.false_eq_true, if_false]
  rw [List.all_eq_true]
  intro b hb
  have hbr := processFeatures_branches cfg.targetEpsg (crsStep cfg).processedCrs
    cfg.outputFolder cfg.features 0 b hb
  rw [hbr, hcrs, h1]
  simp [branchFor]

/-- C9 witness: explicit EPSG 7 on a raster already in `EPSG:7`; both
features take the plain-crop branch. -/
theorem explicit_epsg_plain_branch_witness :
    cfgEpsgLoop.targetEpsg = some 7
    ∧ (crsStep cfgEpsgLoop).warpFailed = false
    ∧ (runModel cfgEpsgLoop).branches.all (fun b => b == MaskBranch.plainCrop) = true :=
  ⟨rfl, by decide, explicit_epsg_plain_branch cfgEpsgLoop 7 rfl (by decide)⟩

/-! ## C10: the HTTP path fixes every model parameter but exaggeration -/

/-- C10: every `/generate` request invokes the pipeline with target size
180 mm and no target EPSG; the client-settable exaggeration (default 10)
is passed through; and with no target EPSG no reprojection of any kind
happens — no warp, no per-feature bilinear branch, no vector
reprojection. -/
theorem http_invocation_defaults (ex : ℚ) (demCrs vectorCrs : String) (warpOk : Bool)
    (features : List Feature) :
    (httpPipelineArgs ex).targetSizeMm = 180
    ∧ (httpPipelineArgs ex).targetEpsg = none
    ∧ (httpPipelineArgs ex).verticalExaggeration = ex
    ∧ (httpPipelineArgs httpExaggerationDefault).verticalExaggeration = 10
    ∧ (runModel (httpRunConfig ex demCrs vectorCrs warpOk features)).tempCreated = false
    ∧ (runModel (httpRunConfig ex demCrs vectorCrs warpOk features)).branches.all
        (fun b => b == MaskBranch.plainCrop) = true
    ∧ (runModel (httpRunConfig ex demCrs vectorCrs warpOk features)).vectorCrsUsed
        = vectorCrs := by
  refine ⟨rfl, rfl, rfl, rfl, rfl, ?_, rfl⟩
  rw [List.all_eq_true]
  intro b hb
  have hbr := processFeatures_branches none demCrs "stl_output" features 0 b hb
  rw [hbr]
  simp [branchFor]

end GenStl
